import Mathlib

/-!
Verification of the workflow DAG execution engine of `neovm-taskd`.

The definitions below are a shallow embedding of `src/taw/Workflow.ts`
(whose state-management methods are byte-identical to `src/task/Workflow.ts`)
together with the data shapes declared by the Zod schemas in
`src/taw/schema/workflow.ts`.  TypeScript `Record<string, T>` objects are
modelled as association lists with unique keys (`List (String × T)`); the
impure timestamp source `Date.now()` becomes an explicit `now : Nat`
argument; `z.any()` payloads (step results, variable and output values) are
modelled by the small closed `Value` type, which is all the engine ever
stores or compares.  Optional sub-objects that no state-management method
reads (`scheduling`, `genkit`, `resources`, `monitoring`, step `resources`
and `config`) are omitted from the embedding.
-/

/-- Step status enum of `WorkflowExecutionStateSchema.stepStates` (schema
`workflow.ts`, lines 161-168). -/
inductive StepStatus
  | pending
  | running
  | completed
  | failed
  | skipped
  | cancelled
  deriving DecidableEq, Repr

/-- `WorkflowStatusEnum` (schema `workflow.ts`, lines 121-131). -/
inductive WorkflowStatus
  | draft
  | pending
  | running
  | paused
  | completed
  | failed
  | cancelled
  | timeout
  | suspended
  deriving DecidableEq, Repr

/-- Step kind enum of `WorkflowStepSchema.type`. -/
inductive StepType
  | task
  | subworkflow
  | decision
  | parallel
  | waitStep
  | manual
  deriving DecidableEq, Repr

/-- `WorkflowDefinitionSchema.flowType` enum. -/
inductive FlowType
  | sequential
  | parallel
  | dag
  | stateMachine
  deriving DecidableEq, Repr

/-- `WorkflowStepSchema.retryPolicy.backoffStrategy` enum. -/
inductive BackoffStrategy
  | fixed
  | exponential
  | linear
  deriving DecidableEq, Repr

/-- `WorkflowStepSchema.retryPolicy` (schema `workflow.ts`, lines 59-69).
Delays are in milliseconds; `jitterPercent` is the 0-100 jitter percentage. -/
structure RetryPolicy where
  maxAttempts : Nat
  backoffStrategy : BackoffStrategy
  initialDelayMs : Nat
  maxDelayMs : Option Nat
  jitterPercent : Nat
  deriving DecidableEq, Repr

/-- `WorkflowStepSchema.condition`: an optional guard expression.  The
engine code never evaluates it, so the expression is kept as opaque text. -/
structure StepCondition where
  expression : Option String
  deriving DecidableEq, Repr

/-- A JSON-ish value standing in for the `z.any()` / `unknown` payloads
stored in variables, outputs and step results. -/
inductive Value
  | str (s : String)
  | num (n : Int)
  | boolean (b : Bool)
  | null
  deriving DecidableEq, Repr

/-- `WorkflowStepSchema` (schema `workflow.ts`, lines 32-83); the
`resources` and `config` sub-objects are omitted (never read by the
engine). -/
structure WorkflowStep where
  id : String
  name : String
  type : StepType
  taskId : Option String
  workflowId : Option String
  dependsOn : List String
  runAfter : List String
  condition : Option StepCondition
  retryPolicy : Option RetryPolicy
  timeoutMs : Option Nat
  deriving DecidableEq, Repr

/-- `WorkflowDefinitionSchema` (schema `workflow.ts`, lines 85-116);
`errorHandling`, `globalConfig` and `environmentVariables` are omitted
(never read by the state-management methods). -/
structure WorkflowDefinition where
  steps : List WorkflowStep
  startStep : String
  endSteps : List String
  flowType : FlowType
  maxConcurrency : Option Nat
  deriving DecidableEq, Repr

/-- The `progress` object of `WorkflowExecutionStateSchema` (schema
`workflow.ts`, lines 137-143).  `progressPercent` is a JS float; it is
modelled as a rational. -/
structure Progress where
  totalSteps : Nat
  completedSteps : Nat
  failedSteps : Nat
  skippedSteps : Nat
  progressPercent : ℚ
  deriving DecidableEq, Repr

/-- One entry of `WorkflowExecutionStateSchema.stepStates` (schema
`workflow.ts`, lines 158-177). -/
structure StepState where
  status : StepStatus
  startedAt : Option Nat
  completedAt : Option Nat
  duration : Option Nat
  retryCount : Nat
  result : Option Value
  error : Option String
  deriving DecidableEq, Repr

/-- `WorkflowExecutionStateSchema` (schema `workflow.ts`, lines 133-182). -/
structure ExecutionState where
  status : WorkflowStatus
  progress : Progress
  scheduledAt : Option Nat
  startedAt : Option Nat
  completedAt : Option Nat
  lastActivityAt : Option Nat
  estimatedCompletionAt : Option Nat
  currentStep : Option String
  activeSteps : List String
  waitingSteps : List String
  stepStates : List (String × StepState)
  -- the `variables` bag of the schema (`variables` is a reserved word here)
  vars : Option (List (String × Value))
  outputs : Option (List (String × Value))
  deriving DecidableEq, Repr

/-- One entry of `WorkflowMetadataSchema.auditLog`. -/
structure AuditEntry where
  timestamp : Nat
  action : String
  actor : Option String
  details : Option String
  deriving DecidableEq, Repr

/-- `WorkflowMetadataSchema` (schema `workflow.ts`, lines 383-441);
`versionHistory`, `annotations` and `documentation` are omitted (never
read or written by the state-management methods modelled here). -/
structure WorkflowMetadata where
  createdAt : Nat
  updatedAt : Nat
  createdBy : Option String
  auditLog : List AuditEntry
  labels : Option (List (String × String))
  deriving DecidableEq, Repr

/-- The complete `WorkflowSchema` record held in `Workflow._data`. -/
structure Workflow where
  id : String
  name : String
  description : Option String
  type : String
  category : Option String
  version : String
  tags : List String
  definition : WorkflowDefinition
  executionState : ExecutionState
  metadata : WorkflowMetadata
  deriving DecidableEq, Repr

/-- Read a key from a JS-object-style record (`obj[k]`): the value at the
unique occurrence of the key, if present. -/
def recordGet {α : Type} (k : String) : List (String × α) → Option α
  | [] => none
  | e :: es => if e.1 = k then some e.2 else recordGet k es

/-- Write a key into a JS-object-style record (`obj[k] = v`): replace the
value at the key in place if present, otherwise append the new entry
(JS objects keep insertion order and have unique keys). -/
def recordSet {α : Type} (k : String) (v : α) : List (String × α) → List (String × α)
  | [] => [(k, v)]
  | e :: es => if e.1 = k then (k, v) :: es else e :: recordSet k v es

/-- String rendering of a workflow status, as interpolated by
`updateStatus` into the audit-log action `status_changed_to_...`. -/
def statusStr : WorkflowStatus → String
  | .draft => "draft"
  | .pending => "pending"
  | .running => "running"
  | .paused => "paused"
  | .completed => "completed"
  | .failed => "failed"
  | .cancelled => "cancelled"
  | .timeout => "timeout"
  | .suspended => "suspended"

/-- The default step-state record installed by `updateStepState` when no
record exists for a step id: `{ status: 'pending', retryCount: 0 }`
(`Workflow.ts`, lines 240-245). -/
def defaultStepState : StepState :=
  { status := StepStatus.pending
    startedAt := none
    completedAt := none
    duration := none
    retryCount := 0
    result := none
    error := none }

/-- A `Partial<StepState>` update as passed to `updateStepState`: each
field is present (overriding) or absent. -/
structure StepStateUpdate where
  status : Option StepStatus
  startedAt : Option Nat
  completedAt : Option Nat
  duration : Option Nat
  retryCount : Option Nat
  result : Option Value
  error : Option String
  deriving DecidableEq, Repr

/-- JS object spread `{ ...s, ...u }`: fields present in the update `u`
override those of `s`. -/
def applyUpdate (s : StepState) (u : StepStateUpdate) : StepState :=
  { status := u.status.getD s.status
    startedAt := match u.startedAt with | none => s.startedAt | some v => some v
    completedAt := match u.completedAt with | none => s.completedAt | some v => some v
    duration := match u.duration with | none => s.duration | some v => some v
    retryCount := u.retryCount.getD s.retryCount
    result := match u.result with | none => s.result | some v => some v
    error := match u.error with | none => s.error | some v => some v }

namespace Workflow

/-- `getStep` (`Workflow.ts`, lines 304-306): first definition step with the
given id. -/
def getStep (w : Workflow) (stepId : String) : Option WorkflowStep :=
  w.definition.steps.find? (fun step => decide (step.id = stepId))

/-- `getStepState` (`Workflow.ts`, lines 308-310). -/
def getStepState (w : Workflow) (stepId : String) : Option StepState :=
  recordGet stepId w.executionState.stepStates

/-- `isStepReady` (`Workflow.ts`, lines 312-325): false for an unknown id;
otherwise every id in `dependsOn` must have a state record with status
`completed` (the `for` loop with early `return false` is `List.all`). -/
def isStepReady (w : Workflow) (stepId : String) : Bool :=
  match w.getStep stepId with
  | none => false
  | some step =>
      step.dependsOn.all (fun depId =>
        match w.getStepState depId with
        | none => false
        | some depState => decide (depState.status = StepStatus.completed))

/-- `getReadySteps` (`Workflow.ts`, lines 327-336): ids of definition steps
that have no state record or a `pending` one, and are ready. -/
def getReadySteps (w : Workflow) : List String :=
  (w.definition.steps.filter (fun step =>
      (match w.getStepState step.id with
       | none => true
       | some state => decide (state.status = StepStatus.pending))
      && w.isStepReady step.id)).map (fun step => step.id)

/-- The `getReadySteps()` method as a state transformer: the TypeScript
method only reads `this._data` and performs no assignment, so its effect
on the instance state is the identity. -/
def getReadyStepsCall (w : Workflow) : Workflow × List String :=
  (w, w.getReadySteps)

/-- `updateStatus` (`Workflow.ts`, lines 186-203): unconditionally set the
status, stamp `updatedAt`, record `startedAt` on first entry to `running`
(JS `!startedAt` is true for `undefined` and for `0`), stamp `completedAt`
on `completed`/`failed`/`cancelled`, and append an audit entry. -/
def updateStatus (w : Workflow) (status : WorkflowStatus) (now : Nat) : Workflow :=
  let es0 := { w.executionState with status := status }
  let es1 :=
    if status = WorkflowStatus.running ∧ es0.startedAt.getD 0 = 0 then
      { es0 with startedAt := some now }
    else es0
  let es2 :=
    if status = WorkflowStatus.completed ∨ status = WorkflowStatus.failed ∨
        status = WorkflowStatus.cancelled then
      { es1 with completedAt := some now }
    else es1
  { w with
    executionState := es2
    metadata := { w.metadata with
      updatedAt := now
      auditLog := w.metadata.auditLog ++
        [{ timestamp := now
           action := "status_changed_to_" ++ statusStr status
           actor := none
           details := none }] } }

/-- `updateProgress` (`Workflow.ts`, lines 205-226): recount total,
completed, failed and skipped steps from the definition and the step-state
collection, and set `progressPercent = (completed / total) * 100`
(`0` when there are no steps). -/
def updateProgress (w : Workflow) (now : Nat) : Workflow :=
  let totalSteps := w.definition.steps.length
  let completedSteps :=
    ((w.executionState.stepStates.map Prod.snd).filter
      (fun state => decide (state.status = StepStatus.completed))).length
  let failedSteps :=
    ((w.executionState.stepStates.map Prod.snd).filter
      (fun state => decide (state.status = StepStatus.failed))).length
  let skippedSteps :=
    ((w.executionState.stepStates.map Prod.snd).filter
      (fun state => decide (state.status = StepStatus.skipped))).length
  { w with
    executionState := { w.executionState with
      progress :=
        { totalSteps := totalSteps
          completedSteps := completedSteps
          failedSteps := failedSteps
          skippedSteps := skippedSteps
          progressPercent :=
            if totalSteps > 0 then ((completedSteps : ℚ) / (totalSteps : ℚ)) * 100 else 0 } }
    metadata := { w.metadata with updatedAt := now } }

/-- `updateStepState` (`Workflow.ts`, lines 236-266): install the default
record if the id is unknown, merge the partial update over it (the
install-then-merge pair of writes collapses to one write of the merged
record at the same key), maintain `activeSteps` (append on `running` if
absent, otherwise remove the first occurrence), then recompute progress
and stamp `updatedAt`. -/
def updateStepState (w : Workflow) (stepId : String) (u : StepStateUpdate) (now : Nat) :
    Workflow :=
  let base := (w.getStepState stepId).getD defaultStepState
  let newStates := recordSet stepId (applyUpdate base u) w.executionState.stepStates
  let newActive :=
    if u.status = some StepStatus.running then
      if w.executionState.activeSteps.contains stepId then w.executionState.activeSteps
      else w.executionState.activeSteps ++ [stepId]
    else w.executionState.activeSteps.erase stepId
  let w1 := { w with
    executionState := { w.executionState with
      stepStates := newStates
      activeSteps := newActive } }
  let w2 := w1.updateProgress now
  { w2 with metadata := { w2.metadata with updatedAt := now } }

/-- `setVariable` (`Workflow.ts`, lines 268-274): initialise the variable
bag if absent, then write the key unconditionally. -/
def setVariable (w : Workflow) (key : String) (value : Value) (now : Nat) : Workflow :=
  { w with
    executionState := { w.executionState with
      vars := some (recordSet key value (w.executionState.vars.getD [])) }
    metadata := { w.metadata with updatedAt := now } }

/-- `setOutput` (`Workflow.ts`, lines 280-286): initialise the output bag
if absent, then write the key unconditionally. -/
def setOutput (w : Workflow) (key : String) (value : Value) (now : Nat) : Workflow :=
  { w with
    executionState := { w.executionState with
      outputs := some (recordSet key value (w.executionState.outputs.getD [])) }
    metadata := { w.metadata with updatedAt := now } }

/-- Replace only `executionState.status`, leaving every other field alone:
the generic form of two workflow values that are identical except for the
run-level status. -/
def setWorkflowStatus (w : Workflow) (st : WorkflowStatus) : Workflow :=
  { w with executionState := { w.executionState with status := st } }

/-- Replace only `definition.maxConcurrency`. -/
def setMaxConcurrency (w : Workflow) (n : Option Nat) : Workflow :=
  { w with definition := { w.definition with maxConcurrency := n } }

/-- Replace only `executionState.activeSteps`. -/
def setActiveSteps (w : Workflow) (l : List String) : Workflow :=
  { w with executionState := { w.executionState with activeSteps := l } }

end Workflow

/-- Propositional count of step-state records with a given status, used to
state progress aggregation independently of the code's filter pipeline. -/
def countStatus (st : StepStatus) (states : List (String × StepState)) : Nat :=
  states.countP (fun e => decide (e.2.status = st))

/-- The decision taken by the Retry/Backoff Controller on a step failure:
either re-dispatch after a delay or declare the failure terminal
(`RetryExhausted`). -/
inductive RetryDecision
  | retryAfter (delayMs : Nat)
  | exhausted
  deriving DecidableEq, Repr

/-- Modelled from the spec: the repository only declares the retry policy
shape (`WorkflowStepSchema.retryPolicy`, schema `workflow.ts` lines
59-69) and contains no Retry/Backoff Controller code.  This models the
per-attempt backoff multiplier of spec §4.4 — `1` for `fixed`, the attempt
number for `linear`, and a doubling per attempt for `exponential`, the
exponential case normalised to `2^(attempt-1)` so that the first failure
is delayed by exactly the initial delay as Scenario C requires. -/
def backoffMultiplier : BackoffStrategy → Nat → Nat
  | .fixed, _ => 1
  | .linear, attempt => attempt
  | .exponential, attempt => 2 ^ (attempt - 1)

/-- Modelled from the spec (§4.4): the re-dispatch delay for the given
failure count — initial delay times the backoff multiplier, clamped to
`maxDelayMs` when that is set.  Jitter is a uniform random perturbation
and is outside the deterministic model (the ±jitter envelope of Scenario C
is the unperturbed value proved here). -/
def computeDelay (p : RetryPolicy) (attempt : Nat) : Nat :=
  let raw := p.initialDelayMs * backoffMultiplier p.backoffStrategy attempt
  match p.maxDelayMs with
  | none => raw
  | some m => min raw m

/-- Modelled from the spec (§4.4): on a step failure with the given attempt
count, retry after the computed delay while attempts remain, otherwise the
failure is terminal (`RetryExhausted`). -/
def retryDecision (p : RetryPolicy) (attempt : Nat) : RetryDecision :=
  if attempt < p.maxAttempts then RetryDecision.retryAfter (computeDelay p attempt)
  else RetryDecision.exhausted

/-- The retry policy of spec Scenario C:
`{maxAttempts: 3, backoff: exponential, initialDelay: 1000ms}`. -/
def scenarioCPolicy : RetryPolicy :=
  { maxAttempts := 3
    backoffStrategy := BackoffStrategy.exponential
    initialDelayMs := 1000
    maxDelayMs := none
    jitterPercent := 0 }

/-! Concrete workflow values used as counterexamples and witnesses. -/

/-- A task step with the given id and hard dependencies and no optional
configuration. -/
def mkStep (id : String) (deps : List String) : WorkflowStep :=
  { id := id
    name := id
    type := StepType.task
    taskId := none
    workflowId := none
    dependsOn := deps
    runAfter := []
    condition := none
    retryPolicy := none
    timeoutMs := none }

/-- A step-state record with the given status and all optional fields
unset. -/
def mkStepState (status : StepStatus) : StepState :=
  { status := status
    startedAt := none
    completedAt := none
    duration := none
    retryCount := 0
    result := none
    error := none }

/-- An execution state with the given run status and step states and
everything else at its schema default. -/
def mkExecState (status : WorkflowStatus) (states : List (String × StepState)) :
    ExecutionState :=
  { status := status
    progress :=
      { totalSteps := 0, completedSteps := 0, failedSteps := 0, skippedSteps := 0
        progressPercent := 0 }
    scheduledAt := none
    startedAt := none
    completedAt := none
    lastActivityAt := none
    estimatedCompletionAt := none
    currentStep := none
    activeSteps := []
    waitingSteps := []
    stepStates := states
    vars := none
    outputs := none }

/-- A workflow with the given steps, execution state and concurrency cap. -/
def mkWorkflow (steps : List WorkflowStep) (es : ExecutionState) (maxConc : Option Nat) :
    Workflow :=
  { id := "wf-1"
    name := "wf"
    description := none
    type := "dag"
    category := none
    version := "1.0.0"
    tags := []
    definition :=
      { steps := steps
        startStep := ""
        endSteps := []
        flowType := FlowType.dag
        maxConcurrency := maxConc }
    executionState := es
    metadata :=
      { createdAt := 0, updatedAt := 0, createdBy := none, auditLog := [], labels := none } }

/-- Two-step run for claim C1: predecessor `a` is skipped, dependent `b`
(hard dependency on `a`) is pending. -/
def wfC1 : Workflow :=
  mkWorkflow [mkStep "a" [], mkStep "b" ["a"]]
    (mkExecState WorkflowStatus.running
      [("a", mkStepState StepStatus.skipped), ("b", mkStepState StepStatus.pending)])
    none

/-- Run for claim C2 that already reached the terminal status `completed`. -/
def wfC2 : Workflow :=
  mkWorkflow [mkStep "s1" []] (mkExecState WorkflowStatus.completed []) none

/-- Run for claim C3: `s1` completed, `s2` depends on `s1` and has no state
record yet, so exactly `s2` is ready. -/
def wfC3 : Workflow :=
  mkWorkflow [mkStep "s1" [], mkStep "s2" ["s1"]]
    (mkExecState WorkflowStatus.running [("s1", mkStepState StepStatus.completed)])
    none

/-- Run for claim C4: `maxConcurrency` 2, no active steps, and three
independent pending steps. -/
def wfC4 : Workflow :=
  mkWorkflow [mkStep "s1" [], mkStep "s2" [], mkStep "s3" []]
    (mkExecState WorkflowStatus.running []) (some 2)

/-- Fresh running workflow for claims C5, C7 and C10 (one declared step,
no state records, empty output bag). -/
def wfBase : Workflow :=
  mkWorkflow [mkStep "s1" []] (mkExecState WorkflowStatus.running []) none

/-- A retry policy with a max delay, used to witness the clamping bound:
exponential backoff from 1000ms clamped at 3000ms. -/
def clampedPolicy : RetryPolicy :=
  { maxAttempts := 5
    backoffStrategy := BackoffStrategy.exponential
    initialDelayMs := 1000
    maxDelayMs := some 3000
    jitterPercent := 0 }

/-- A step-state update that only sets the status to `completed`. -/
def completedUpdate : StepStateUpdate :=
  { status := some StepStatus.completed
    startedAt := none
    completedAt := none
    duration := none
    retryCount := none
    result := none
    error := none }

/-! Helper lemmas (shared; none is a claim theorem). -/

/-- Reading a key back right after writing it yields the written value. -/
theorem recordGet_recordSet_self {α : Type} (k : String) (v : α) (r : List (String × α)) :
    recordGet k (recordSet k v r) = some v := by
  induction r with
  | nil => simp [recordSet, recordGet]
  | cons e es ih =>
    by_cases h : e.1 = k
    · simp [recordSet, recordGet, h]
    · simp [recordSet, recordGet, h, ih]

/-- What membership in `getReadySteps` means: the id names a definition
step whose state record is absent or `pending`, and every hard dependency
of the (first) definition step with that id has a state record with
status `completed`.  Shared by the theorems for C1 and C3. -/
theorem ready_mem_spec (w : Workflow) (s : String) (h : s ∈ w.getReadySteps) :
    (w.getStepState s = none ∨
      (w.getStepState s).map StepState.status = some StepStatus.pending) ∧
    ∃ step, w.getStep s = some step ∧
      ∀ d ∈ step.dependsOn,
        (w.getStepState d).map StepState.status = some StepStatus.completed := by
  unfold Workflow.getReadySteps at h
  rw [List.mem_map] at h
  obtain ⟨step0, hmem0, hid⟩ := h
  rw [List.mem_filter] at hmem0
  obtain ⟨-, hp⟩ := hmem0
  rw [Bool.and_eq_true] at hp
  obtain ⟨hpend, hready⟩ := hp
  subst hid
  constructor
  · split at hpend
    · rename_i heq
      exact Or.inl heq
    · rename_i st heq
      rw [heq, Option.map_some']
      exact Or.inr (by rw [of_decide_eq_true hpend])
  · unfold Workflow.isStepReady at hready
    split at hready
    · exact absurd hready (by simp)
    · rename_i step heq
      refine ⟨step, heq, fun d hd => ?_⟩
      have hall := List.all_eq_true.mp hready d hd
      split at hall
      · exact absurd hall (by simp)
      · rename_i ds heqd
        rw [heqd, Option.map_some', of_decide_eq_true hall]

/-! Claim theorems. -/

/-- Claim C3 (confirmed): every id returned by `getReadySteps` names a
definition step whose current status is pending (no state record, which
the engine defaults to pending, or a `pending` record) and all of whose
`dependsOn` dependencies have a state record with status `completed`; in
particular a step with an unsatisfied hard dependency is never returned
and the result is a subset of the pending steps. -/
theorem c3_ready_postcondition (w : Workflow) (s : String) (h : s ∈ w.getReadySteps) :
    (w.getStepState s = none ∨
      (w.getStepState s).map StepState.status = some StepStatus.pending) ∧
    ∃ step, w.getStep s = some step ∧
      ∀ d ∈ step.dependsOn,
        (w.getStepState d).map StepState.status = some StepStatus.completed :=
  ready_mem_spec w s h

/-- Witness for C3: in `wfC3` the step `s2` is returned as ready, and the
postcondition evaluates as stated on it. -/
theorem c3_witness :
    "s2" ∈ wfC3.getReadySteps ∧
    ((wfC3.getStepState "s2" = none ∨
        (wfC3.getStepState "s2").map StepState.status = some StepStatus.pending) ∧
      ∃ step, wfC3.getStep "s2" = some step ∧
        ∀ d ∈ step.dependsOn,
          (wfC3.getStepState d).map StepState.status = some StepStatus.completed) :=
  ⟨by decide, c3_ready_postcondition wfC3 "s2" (by decide)⟩

/-- Claim C1 (counterexample): in `wfC1`, step `b` is pending and its only
hard dependency `a` has status `skipped`, yet `b` is NOT returned as ready
— refuting "a dependent whose only predecessor is skipped becomes ready".
The resolver also never resolves any step to `skipped`. -/
theorem c1_counterexample :
    (wfC1.getStep "b").map WorkflowStep.dependsOn = some ["a"] ∧
    (wfC1.getStepState "a").map StepState.status = some StepStatus.skipped ∧
    (wfC1.getStepState "b").map StepState.status = some StepStatus.pending ∧
    "b" ∉ wfC1.getReadySteps := by decide

/-- Claim C1 (amended): the resolver does not implement guard-based skip
resolution or skip propagation — a pending step is ready only when every
`dependsOn` dependency has a state record with status `completed`, so a
step any of whose dependencies has any other status (in particular
`skipped`, or no record at all) is never returned as ready. -/
theorem c1_amended (w : Workflow) (s d : String) (step : WorkflowStep)
    (hstep : w.getStep s = some step) (hd : d ∈ step.dependsOn)
    (hdep : (w.getStepState d).map StepState.status ≠ some StepStatus.completed) :
    s ∉ w.getReadySteps := by
  intro hmem
  obtain ⟨-, step', hstep', hall⟩ := ready_mem_spec w s hmem
  rw [hstep] at hstep'
  cases hstep'
  exact hdep (hall d hd)

/-- Witness for C1 (amended): applied to `wfC1` at step `b` with skipped
dependency `a`. -/
theorem c1_witness :
    (wfC1.getStepState "a").map StepState.status ≠ some StepStatus.completed ∧
    "b" ∉ wfC1.getReadySteps :=
  ⟨by decide, c1_amended wfC1 "b" "a" (mkStep "b" ["a"]) (by decide) (by decide) (by decide)⟩

/-- Claim C2 (counterexample): `wfC2` is in the terminal status
`completed`, yet `updateStatus` happily moves it to `running` — the
transition is applied, state is mutated, and no `InvalidTransition`
failure exists; terminal statuses are not absorbing. -/
theorem c2_counterexample :
    wfC2.executionState.status = WorkflowStatus.completed ∧
    (wfC2.updateStatus WorkflowStatus.running 5).executionState.status
      = WorkflowStatus.running := by decide

/-- Claim C2 (amended): `updateStatus` validates nothing — for every
current state and every requested status (legal or not under the spec's
lifecycle) it unconditionally sets the status and appends an audit entry;
no transition ever fails and no status is absorbing. -/
theorem c2_amended (w : Workflow) (st : WorkflowStatus) (now : Nat) :
    (w.updateStatus st now).executionState.status = st ∧
    (w.updateStatus st now).metadata.auditLog =
      w.metadata.auditLog ++
        [{ timestamp := now
           action := "status_changed_to_" ++ statusStr st
           actor := none
           details := none }] := by
  constructor
  · simp only [Workflow.updateStatus]
    split <;> split <;> rfl
  · rfl

/-- Claim C4 (counterexample): `wfC4` has `maxConcurrency` 2 and no active
steps, yet the resolver returns all three independent ready steps — more
than the remaining concurrency budget. -/
theorem c4_counterexample :
    wfC4.definition.maxConcurrency = some 2 ∧
    wfC4.executionState.activeSteps = [] ∧
    wfC4.getReadySteps = ["s1", "s2", "s3"] ∧
    2 < wfC4.getReadySteps.length := by decide

/-- Claim C4 (amended): `getReadySteps` ignores the concurrency budget
entirely — its result is unchanged by `maxConcurrency` and by the
active-step set, so it can exceed `maxConcurrency` minus the number of
active steps (as the counterexample shows). -/
theorem c4_amended (w : Workflow) (n : Option Nat) (l : List String) :
    (w.setMaxConcurrency n).getReadySteps = w.getReadySteps ∧
    (w.setActiveSteps l).getReadySteps = w.getReadySteps :=
  ⟨rfl, rfl⟩

/-- Claim C5 (confirmed): after every step transition (`updateStepState`,
which ends by calling `updateProgress`) the progress snapshot is a pure
function of the current step-state collection: `totalSteps` is the number
of definition steps, `completedSteps`/`failedSteps`/`skippedSteps` count
the state records with that status, and the progress percent is the
fraction completed/total expressed as a percentage, `0` when there are no
steps. -/
theorem c5_progress_aggregation (w : Workflow) (sid : String) (u : StepStateUpdate)
    (now : Nat) :
    (w.updateStepState sid u now).executionState.progress.totalSteps
        = w.definition.steps.length ∧
    (w.updateStepState sid u now).executionState.progress.completedSteps
        = countStatus StepStatus.completed
            (w.updateStepState sid u now).executionState.stepStates ∧
    (w.updateStepState sid u now).executionState.progress.failedSteps
        = countStatus StepStatus.failed
            (w.updateStepState sid u now).executionState.stepStates ∧
    (w.updateStepState sid u now).executionState.progress.skippedSteps
        = countStatus StepStatus.skipped
            (w.updateStepState sid u now).executionState.stepStates ∧
    (w.updateStepState sid u now).executionState.progress.progressPercent
        = if w.definition.steps.length = 0 then (0 : ℚ)
          else ((w.updateStepState sid u now).executionState.progress.completedSteps : ℚ)
              / (w.definition.steps.length : ℚ) * 100 := by
  have hcount : ∀ (st : StepStatus) (l : List (String × StepState)),
      ((l.map Prod.snd).filter (fun state => decide (state.status = st))).length
        = countStatus st l := fun st l => by
    rw [← List.countP_eq_length_filter, List.countP_map]; rfl
  simp only [Workflow.updateStepState, Workflow.updateProgress, hcount]
  refine ⟨trivial, trivial, trivial, trivial, ?_⟩
  by_cases ht : w.definition.steps.length = 0
  · simp [ht]
  · simp [ht, Nat.pos_of_ne_zero ht]

/-- Claim C6 (confirmed, spec-modelled): no Retry/Backoff Controller code
exists under `src` (only the `retryPolicy` schema), so the controller is
modelled from spec §4.4.  While attempts remain the re-dispatch delay is
the initial delay times the backoff multiplier (1 fixed, attempt linear,
doubling per attempt for exponential), clamped to the max delay; and for
Scenario C's policy `{maxAttempts: 3, exponential, 1000ms}` the first
failure is rescheduled after 1000ms, the second after 2000ms, and the
third failure is terminal (`RetryExhausted`). -/
theorem c6_retry_backoff (p : RetryPolicy) (attempt m : Nat)
    (hm : p.maxDelayMs = some m) (hlt : attempt < p.maxAttempts) :
    (retryDecision p attempt
        = RetryDecision.retryAfter
            (min (p.initialDelayMs * backoffMultiplier p.backoffStrategy attempt) m) ∧
      computeDelay p attempt ≤ m) ∧
    retryDecision scenarioCPolicy 1 = RetryDecision.retryAfter 1000 ∧
    retryDecision scenarioCPolicy 2 = RetryDecision.retryAfter 2000 ∧
    retryDecision scenarioCPolicy 3 = RetryDecision.exhausted := by
  refine ⟨⟨?_, ?_⟩, by decide, by decide, by decide⟩
  · simp [retryDecision, hlt, computeDelay, hm]
  · simp only [computeDelay, hm]
    exact Nat.min_le_right _ _

/-- Witness for C6: the clamped policy (exponential from 1000ms, clamped
at 3000ms) at the third failure. -/
theorem c6_witness :
    clampedPolicy.maxDelayMs = some 3000 ∧ 3 < clampedPolicy.maxAttempts ∧
    (retryDecision clampedPolicy 3
        = RetryDecision.retryAfter
            (min (clampedPolicy.initialDelayMs
                * backoffMultiplier clampedPolicy.backoffStrategy 3) 3000) ∧
      computeDelay clampedPolicy 3 ≤ 3000) :=
  ⟨by decide, by decide, (c6_retry_backoff clampedPolicy 3 3000 (by decide) (by decide)).1⟩

/-- Claim C7 (counterexample): writing the key `k` twice through
`setOutput` changes the stored value from the first write's `1` to the
second write's `2` — the output bag is not write-once per key. -/
theorem c7_counterexample :
    recordGet "k" ((wfBase.setOutput "k" (Value.num 1) 1).executionState.outputs.getD [])
      = some (Value.num 1) ∧
    recordGet "k"
        (((wfBase.setOutput "k" (Value.num 1) 1).setOutput "k"
            (Value.num 2) 2).executionState.outputs.getD [])
      = some (Value.num 2) := by decide

/-- Claim C7 (amended): `setOutput` is last-write-wins — it unconditionally
overwrites whatever is stored at the key, so after two writes to the same
key the bag holds the second value. -/
theorem c7_amended (w : Workflow) (k : String) (v1 v2 : Value) (t1 t2 : Nat) :
    recordGet k
        (((w.setOutput k v1 t1).setOutput k v2 t2).executionState.outputs.getD [])
      = some v2 := by
  simp [Workflow.setOutput, recordGet_recordSet_self]

/-- Claim C8 (confirmed): the `getReadySteps()` call, embedded as a state
transformer, leaves the workflow data unchanged (the method performs no
assignment), and two consecutive calls with no intervening mutation
return the same result. -/
theorem c8_resolver_pure_idempotent (w : Workflow) :
    (w.getReadyStepsCall).1 = w ∧
    ((w.getReadyStepsCall).1.getReadyStepsCall).2 = (w.getReadyStepsCall).2 :=
  ⟨rfl, rfl⟩

/-- Claim C9 (confirmed): the ready set does not depend on the run-level
status — replacing `executionState.status` by any value (running, paused,
cancelled, completed, ...) leaves `getReadySteps` unchanged, so a run in
a terminal or paused status still reports the same ready steps. -/
theorem c9_status_noninterference (w : Workflow) (st : WorkflowStatus) :
    (w.setWorkflowStatus st).getReadySteps = w.getReadySteps := rfl

/-- Claim C10 (confirmed): `updateStepState` is total over all step ids —
for any id with no existing state record (the id need not occur in
`definition.steps`) it installs the default `{status: pending,
retryCount: 0}` record merged with the partial update, never failing and
never validating the id against the step graph. -/
theorem c10_total_updateStepState (w : Workflow) (sid : String) (u : StepStateUpdate)
    (now : Nat) (h : w.getStepState sid = none) :
    (w.updateStepState sid u now).executionState.stepStates
      = recordSet sid (applyUpdate defaultStepState u) w.executionState.stepStates ∧
    recordGet sid (w.updateStepState sid u now).executionState.stepStates
      = some (applyUpdate defaultStepState u) := by
  have h1 : (w.updateStepState sid u now).executionState.stepStates
      = recordSet sid (applyUpdate ((w.getStepState sid).getD defaultStepState) u)
          w.executionState.stepStates := by
    simp only [Workflow.updateStepState, Workflow.updateProgress]
  rw [h] at h1
  exact ⟨h1, by rw [h1]; exact recordGet_recordSet_self sid _ _⟩

/-- Witness for C10: the id `ghost` does not occur in `wfBase`'s step
graph and has no state record, yet `updateStepState` installs and merges
a record for it. -/
theorem c10_witness :
    wfBase.definition.steps.all (fun st => decide (st.id ≠ "ghost")) = true ∧
    wfBase.getStepState "ghost" = none ∧
    ((wfBase.updateStepState "ghost" completedUpdate 7).executionState.stepStates
        = recordSet "ghost" (applyUpdate defaultStepState completedUpdate)
            wfBase.executionState.stepStates ∧
      recordGet "ghost"
          (wfBase.updateStepState "ghost" completedUpdate 7).executionState.stepStates
        = some (applyUpdate defaultStepState completedUpdate)) :=
  ⟨by decide, by decide, c10_total_updateStepState wfBase "ghost" completedUpdate 7 (by decide)⟩
